import Mathlib

/-!
Verification development for the temporal feature-engineering and ensemble
prediction core of the AnalizadorFutbol backend.

Shallow embedding conventions:
* A database row of the `fixtures` table is the structure `Fixture`.
  The match-history store is a `List Fixture` in insertion (rowid) order.
* Dates are natural numbers (only their ordering matters to the code).
* Python/NumPy floating-point arithmetic is modelled by exact rationals `ℚ`;
  every numeric claim settled here concerns exact small decimal values.
* SQL `ORDER BY date DESC` / `ASC` leaves the order of equal dates
  unspecified; the embedding fixes one definite order via insertion sort
  (the concrete inputs used to settle claims have pairwise distinct dates
  wherever tie order could matter).
* Python `x or 0` on an optional integer is `Option.getD x 0`;
  Python dict access `d[k]` that can raise `KeyError` is an `Except` value;
  sklearn / ensemble exceptions are the inductive `PyError`.
* The opaque numeric learners from sklearn/xgboost/lightgbm are parameters
  (the `SkLibs` record): the control flow around them is embedded from the
  repository's source, and the theorems hold for every instantiation.
-/

namespace AF

/-- A row of the `fixtures` table (src/backend/src/db/models.py), restricted to
the columns read by the feature calculators and the trainer. -/
structure Fixture where
  id : Nat
  league_id : Nat
  season : Nat
  date : Nat
  home_team_id : Nat
  away_team_id : Nat
  home_goals : Option Nat
  away_goals : Option Nat
  status : String
  result : Option Nat
deriving DecidableEq, Repr

/-- Insert a fixture into a list already sorted by date descending
(tie order is unspecified in SQL; this embedding puts the inserted
element after earlier equal dates). -/
def insertDesc (f : Fixture) : List Fixture → List Fixture
  | [] => [f]
  | g :: t => if f.date ≤ g.date then g :: insertDesc f t else f :: g :: t

/-- `ORDER BY date DESC` of the store. -/
def sortByDateDesc : List Fixture → List Fixture
  | [] => []
  | f :: t => insertDesc f (sortByDateDesc t)

/-- Team goals with Python's `or 0` null-coercion. -/
def hGoals (f : Fixture) : Nat := f.home_goals.getD 0

/-- Opponent-side analogue of `hGoals`. -/
def aGoals (f : Fixture) : Nat := f.away_goals.getD 0

/-- The WHERE clause of FormCalculator._get_recent_fixtures (default flags):
date strictly before, finished, involving the team. -/
def formFilter (store : List Fixture) (team_id : Nat) (before : Nat) :
    List Fixture :=
  store.filter (fun f =>
    decide (f.date < before) && (f.status == "FT") &&
    (f.home_team_id == team_id || f.away_team_id == team_id))

/-- FormCalculator._get_recent_fixtures (default flags): finished fixtures of
the team strictly before `before`, newest first, limited. -/
def get_recent_fixtures (store : List Fixture) (team_id : Nat) (before : Nat)
    (limit : Nat) : List Fixture :=
  (sortByDateDesc (formFilter store team_id before)).take limit

/-- Points the team earned in one fixture (W=3, D=1, L=0), with null goals
coerced to 0 as in the source (`home_goals or 0`). -/
def fixture_points (team_id : Nat) (f : Fixture) : Nat :=
  let hg := hGoals f
  let ag := aGoals f
  if f.home_team_id == team_id then
    if hg > ag then 3 else if hg == ag then 1 else 0
  else
    if ag > hg then 3 else if hg == ag then 1 else 0

/-- FormCalculator._calculate_points. -/
def calculate_points (team_id : Nat) : List Fixture → Nat
  | [] => 0
  | f :: t => fixture_points team_id f + calculate_points team_id t

/-- FormCalculator._calculate_goals: (goals_for, goals_against). -/
def calculate_goals (team_id : Nat) : List Fixture → Nat × Nat
  | [] => (0, 0)
  | f :: t =>
    let r := calculate_goals team_id t
    if f.home_team_id == team_id then (hGoals f + r.1, aGoals f + r.2)
    else (aGoals f + r.1, hGoals f + r.2)

/-- FormCalculator._calculate_wins_draws_losses: (wins, draws, losses). -/
def calculate_wins_draws_losses (team_id : Nat) : List Fixture → Nat × Nat × Nat
  | [] => (0, 0, 0)
  | f :: t =>
    let r := calculate_wins_draws_losses team_id t
    let hg := hGoals f
    let ag := aGoals f
    let won := if f.home_team_id == team_id then hg > ag else ag > hg
    if won then (r.1 + 1, r.2.1, r.2.2)
    else if hg == ag then (r.1, r.2.1 + 1, r.2.2)
    else (r.1, r.2.1, r.2.2 + 1)

/-- Streak accumulator of FormCalculator._calculate_streak. -/
structure Streaks where
  win_streak : Nat
  unbeaten_streak : Nat
  winless_streak : Nat
deriving DecidableEq, Repr

/-- One iteration of the `for f in fixtures` loop of _calculate_streak.
The Python guards `if *_streak >= 0` are always true (the counters are
non-negative integers) and are therefore not reproduced. -/
def streak_step (team_id : Nat) (s : Streaks) (f : Fixture) : Streaks :=
  let hg := hGoals f
  let ag := aGoals f
  let won := if f.home_team_id == team_id then hg > ag else ag > hg
  let drew := hg == ag
  if won then
    { win_streak := s.win_streak + 1, unbeaten_streak := s.unbeaten_streak + 1,
      winless_streak := 0 }
  else if drew then
    { win_streak := 0, unbeaten_streak := s.unbeaten_streak + 1,
      winless_streak := s.winless_streak + 1 }
  else
    { win_streak := 0, unbeaten_streak := 0,
      winless_streak := s.winless_streak + 1 }

/-- FormCalculator._calculate_streak: a left fold of `streak_step` over the
fixtures in the order they are iterated (newest first). -/
def calculate_streak (team_id : Nat) (fixtures : List Fixture) : Streaks :=
  fixtures.foldl (streak_step team_id) ⟨0, 0, 0⟩

/-- FormCalculator._calculate_clean_sheets: (clean_sheets, failed_to_score). -/
def calculate_clean_sheets (team_id : Nat) : List Fixture → Nat × Nat
  | [] => (0, 0)
  | f :: t =>
    let r := calculate_clean_sheets team_id t
    let hg := hGoals f
    let ag := aGoals f
    if f.home_team_id == team_id then
      (r.1 + (if ag == 0 then 1 else 0), r.2 + (if hg == 0 then 1 else 0))
    else
      (r.1 + (if hg == 0 then 1 else 0), r.2 + (if ag == 0 then 1 else 0))

/-- Feature maps: Python dicts from feature name to float, written as
association lists; all key sets built by the embedded code are duplicate-free,
so first-match lookup agrees with Python's dict semantics. -/
abbrev FeatureMap := List (String × ℚ)

/-- Dict lookup returning `none` for a missing key. -/
def fmGet (m : FeatureMap) (k : String) : Option ℚ :=
  (m.find? (fun p => p.1 == k)).map (fun p => p.2)

/-- Dict access `d[k]`: raises `KeyError k` when the key is missing. -/
def fmGetE (m : FeatureMap) (k : String) : Except String ℚ :=
  match m.find? (fun p => p.1 == k) with
  | some p => .ok p.2
  | none => .error k

/-- The thirteen per-window feature keys of calculate_form_features. -/
def formWindowKeys (pfx : String) (w : Nat) : List String :=
  [pfx ++ "points_last_" ++ toString w,
   pfx ++ "points_avg_" ++ toString w,
   pfx ++ "goals_for_last_" ++ toString w,
   pfx ++ "goals_against_last_" ++ toString w,
   pfx ++ "goals_for_avg_" ++ toString w,
   pfx ++ "goals_against_avg_" ++ toString w,
   pfx ++ "goal_diff_" ++ toString w,
   pfx ++ "wins_last_" ++ toString w,
   pfx ++ "draws_last_" ++ toString w,
   pfx ++ "losses_last_" ++ toString w,
   pfx ++ "win_rate_" ++ toString w,
   pfx ++ "clean_sheets_" ++ toString w,
   pfx ++ "failed_to_score_" ++ toString w]

/-- The `n == 0` branch of a window in calculate_form_features:
every per-window feature defaults to 0.0. -/
def formWindowDefaults (pfx : String) (w : Nat) : FeatureMap :=
  (formWindowKeys pfx w).map (fun k => (k, (0 : ℚ)))

/-- The `n > 0` branch of a window in calculate_form_features. -/
def formWindowComputed (pfx : String) (w : Nat) (team_id : Nat)
    (window_fixtures : List Fixture) : FeatureMap :=
  let n : ℚ := (window_fixtures.length : ℚ)
  let points := calculate_points team_id window_fixtures
  let g := calculate_goals team_id window_fixtures
  let wdl := calculate_wins_draws_losses team_id window_fixtures
  let cs := calculate_clean_sheets team_id window_fixtures
  [(pfx ++ "points_last_" ++ toString w, (points : ℚ)),
   (pfx ++ "points_avg_" ++ toString w, (points : ℚ) / n),
   (pfx ++ "goals_for_last_" ++ toString w, (g.1 : ℚ)),
   (pfx ++ "goals_against_last_" ++ toString w, (g.2 : ℚ)),
   (pfx ++ "goals_for_avg_" ++ toString w, (g.1 : ℚ) / n),
   (pfx ++ "goals_against_avg_" ++ toString w, (g.2 : ℚ) / n),
   (pfx ++ "goal_diff_" ++ toString w, (g.1 : ℚ) - (g.2 : ℚ)),
   (pfx ++ "wins_last_" ++ toString w, (wdl.1 : ℚ)),
   (pfx ++ "draws_last_" ++ toString w, (wdl.2.1 : ℚ)),
   (pfx ++ "losses_last_" ++ toString w, (wdl.2.2 : ℚ)),
   (pfx ++ "win_rate_" ++ toString w, (wdl.1 : ℚ) / n),
   (pfx ++ "clean_sheets_" ++ toString w, (cs.1 : ℚ)),
   (pfx ++ "failed_to_score_" ++ toString w, (cs.2 : ℚ))]

/-- One window (`for w in self.WINDOWS` body) of calculate_form_features. -/
def formWindowFeatures (pfx : String) (w : Nat) (team_id : Nat)
    (window_fixtures : List Fixture) : FeatureMap :=
  if window_fixtures.length == 0 then formWindowDefaults pfx w
  else formWindowComputed pfx w team_id window_fixtures

/-- The streak entries added at the end of calculate_form_features. -/
def formStreakFeatures (pfx : String) (team_id : Nat)
    (fixtures : List Fixture) : FeatureMap :=
  if fixtures.isEmpty then
    [(pfx ++ "win_streak", 0), (pfx ++ "unbeaten_streak", 0),
     (pfx ++ "winless_streak", 0)]
  else
    let s := calculate_streak team_id (fixtures.take 10)
    [(pfx ++ "win_streak", (s.win_streak : ℚ)),
     (pfx ++ "unbeaten_streak", (s.unbeaten_streak : ℚ)),
     (pfx ++ "winless_streak", (s.winless_streak : ℚ))]

/-- FormCalculator.calculate_form_features: windows [3, 5, 10] over the up to
10 most recent finished fixtures before the date, then the streak features. -/
def calculate_form_features (store : List Fixture) (team_id : Nat)
    (before : Nat) (pfx : String) : FeatureMap :=
  let fixtures := get_recent_fixtures store team_id before 10
  (([3, 5, 10].map (fun w =>
      formWindowFeatures pfx w team_id (fixtures.take w))).flatten)
    ++ formStreakFeatures pfx team_id fixtures

/-- FixtureRepository.get_team_fixtures (season = None): every fixture of the
team — with NO date filter and NO status filter — newest first, limited. -/
def get_team_fixtures (store : List Fixture) (team_id : Nat)
    (limit : Nat) : List Fixture :=
  (sortByDateDesc (store.filter (fun f =>
    f.home_team_id == team_id || f.away_team_id == team_id))).take limit

/-- The collection loop of calculate_home_away_form: walk the (already
limited) fixtures, keep finished ones before the date in the requested venue
role, and stop as soon as five are collected. -/
def venueCollect (team_id : Nat) (before : Nat) (is_home : Bool)
    (acc : List Fixture) : List Fixture → List Fixture
  | [] => acc
  | f :: t =>
    if decide (f.date < before) && (f.status == "FT") then
      let acc' :=
        if (is_home && (f.home_team_id == team_id)) ||
           (!is_home && (f.away_team_id == team_id)) then acc ++ [f] else acc
      if 5 ≤ acc'.length then acc'
      else venueCollect team_id before is_home acc' t
    else venueCollect team_id before is_home acc t

/-- FormCalculator.calculate_home_away_form: venue-specific form built from
`get_team_fixtures(team_id, limit=20)` — the 20 most recent fixtures of the
team regardless of date or status — filtered afterwards in Python. -/
def calculate_home_away_form (store : List Fixture) (team_id : Nat)
    (before : Nat) (is_home : Bool) : FeatureMap :=
  let pfx := if is_home then "home_" else "away_"
  let fixtures := get_team_fixtures store team_id 20
  let filtered := venueCollect team_id before is_home [] fixtures
  let n := filtered.length
  if n == 0 then
    [(pfx ++ "form_points_5", 0), (pfx ++ "form_goals_avg", 0)]
  else
    let points := calculate_points team_id filtered
    let g := calculate_goals team_id filtered
    [(pfx ++ "form_points_5", (points : ℚ)),
     (pfx ++ "form_goals_avg", (g.1 : ℚ) / (n : ℚ))]

/-- The per-team statistics dict built by StandingsCalculator._get_standing.
`rank` is initialised to 10 ("Se calculará después") and — in the source —
never recomputed before being read by calculate_standing_features. -/
structure StandingStats where
  rank : Nat
  points : Nat
  goals_diff : Int
  played : Nat
  win : Nat
  draw : Nat
  lose : Nat
  goals_for : Nat
  goals_against : Nat
  home_played : Nat
  home_win : Nat
  home_draw : Nat
  home_lose : Nat
  home_goals_for : Nat
  home_goals_against : Nat
  away_played : Nat
  away_win : Nat
  away_draw : Nat
  away_lose : Nat
  away_goals_for : Nat
  away_goals_against : Nat
deriving DecidableEq, Repr

/-- The zero-initialised stats dict of _get_standing. -/
def emptyStandingStats : StandingStats :=
  { rank := 10, points := 0, goals_diff := 0, played := 0, win := 0, draw := 0,
    lose := 0, goals_for := 0, goals_against := 0, home_played := 0,
    home_win := 0, home_draw := 0, home_lose := 0, home_goals_for := 0,
    home_goals_against := 0, away_played := 0, away_win := 0, away_draw := 0,
    away_lose := 0, away_goals_for := 0, away_goals_against := 0 }

/-- One iteration of the `for fixture in fixtures` loop of _get_standing. -/
def standing_step (team_id : Nat) (s : StandingStats) (f : Fixture) :
    StandingStats :=
  let hg := hGoals f
  let ag := aGoals f
  if f.home_team_id == team_id then
    let s :=
      { s with home_played := s.home_played + 1,
               home_goals_for := s.home_goals_for + hg,
               home_goals_against := s.home_goals_against + ag }
    let s :=
      if hg > ag then
        { s with home_win := s.home_win + 1, win := s.win + 1,
                 points := s.points + 3 }
      else if hg == ag then
        { s with home_draw := s.home_draw + 1, draw := s.draw + 1,
                 points := s.points + 1 }
      else
        { s with home_lose := s.home_lose + 1, lose := s.lose + 1 }
    { s with played := s.played + 1, goals_for := s.goals_for + hg,
             goals_against := s.goals_against + ag }
  else
    let s :=
      { s with away_played := s.away_played + 1,
               away_goals_for := s.away_goals_for + ag,
               away_goals_against := s.away_goals_against + hg }
    let s :=
      if ag > hg then
        { s with away_win := s.away_win + 1, win := s.win + 1,
                 points := s.points + 3 }
      else if ag == hg then
        { s with away_draw := s.away_draw + 1, draw := s.draw + 1,
                 points := s.points + 1 }
      else
        { s with away_lose := s.away_lose + 1, lose := s.lose + 1 }
    { s with played := s.played + 1, goals_for := s.goals_for + ag,
             goals_against := s.goals_against + hg }

/-- The stats accumulation of _get_standing, with `goals_diff` filled in
after the loop as in the source. -/
def standingsFold (team_id : Nat) (fixtures : List Fixture) : StandingStats :=
  let s := fixtures.foldl (standing_step team_id) emptyStandingStats
  { s with goals_diff := (s.goals_for : Int) - (s.goals_against : Int) }

/-- The fixture query of _get_standing: finished fixtures of the team in the
league and season, optionally restricted to dates strictly before a cutoff. -/
def standingFixtures (store : List Fixture) (team_id league_id season : Nat)
    (before : Option Nat) : List Fixture :=
  store.filter (fun f =>
    (f.league_id == league_id) && (f.season == season) &&
    (f.status == "FT") &&
    (f.home_team_id == team_id || f.away_team_id == team_id) &&
    (match before with
     | some b => decide (f.date < b)
     | none => true))

/-- StandingsCalculator._get_standing: `none` when the team has no qualifying
fixtures, otherwise the accumulated stats. -/
def get_standing (store : List Fixture) (team_id league_id season : Nat)
    (before : Option Nat) : Option StandingStats :=
  let fixtures := standingFixtures store team_id league_id season before
  if fixtures.isEmpty then none else some (standingsFold team_id fixtures)

/-- Python `n or 1` on a non-negative count. -/
def orOne (n : Nat) : Nat := if n == 0 then 1 else n

/-- StandingsCalculator.calculate_standing_features.  When the team has no
qualifying fixtures the source returns a four-entry default dict
(position 10, points/goal_diff/ppg 0); note it does NOT contain the
`win_ratio` and count keys of the populated branch. -/
def calculate_standing_features (store : List Fixture)
    (team_id league_id season : Nat) (pfx : String)
    (before : Option Nat) : FeatureMap :=
  match get_standing store team_id league_id season before with
  | none =>
    [(pfx ++ "position", 10), (pfx ++ "points", 0),
     (pfx ++ "goal_diff", 0), (pfx ++ "ppg", 0)]
  | some s =>
    -- `standing['goals_diff'] or 0` and the other `or 0` reads are the
    -- identity on integers (0 maps to 0); `or 1` on the played counters is
    -- `orOne`.
    let played := orOne s.played
    let home_played := orOne s.home_played
    let away_played := orOne s.away_played
    [(pfx ++ "position", (s.rank : ℚ)),
     (pfx ++ "points", (s.points : ℚ)),
     (pfx ++ "goal_diff", (s.goals_diff : ℚ)),
     (pfx ++ "ppg", (s.points : ℚ) / (played : ℚ)),
     (pfx ++ "played", (s.played : ℚ)),
     (pfx ++ "wins", (s.win : ℚ)),
     (pfx ++ "draws", (s.draw : ℚ)),
     (pfx ++ "losses", (s.lose : ℚ)),
     (pfx ++ "goals_for", (s.goals_for : ℚ)),
     (pfx ++ "goals_against", (s.goals_against : ℚ)),
     (pfx ++ "win_ratio", (s.win : ℚ) / (played : ℚ)),
     (pfx ++ "goals_per_game", (s.goals_for : ℚ) / (played : ℚ)),
     (pfx ++ "conceded_per_game", (s.goals_against : ℚ) / (played : ℚ)),
     (pfx ++ "home_wins", (s.home_win : ℚ)),
     (pfx ++ "home_ppg",
       ((s.home_win : ℚ) * 3 + (s.home_draw : ℚ)) / (home_played : ℚ)),
     (pfx ++ "home_goals_per_game",
       (s.home_goals_for : ℚ) / (home_played : ℚ)),
     (pfx ++ "away_wins", (s.away_win : ℚ)),
     (pfx ++ "away_ppg",
       ((s.away_win : ℚ) * 3 + (s.away_draw : ℚ)) / (away_played : ℚ)),
     (pfx ++ "away_goals_per_game",
       (s.away_goals_for : ℚ) / (away_played : ℚ))]

/-- StandingsCalculator.calculate_relative_features.  The dict accesses
`home_features[...]` / `away_features[...]` are performed in source order and
raise `KeyError` (modelled by `Except.error key`) when the key is absent. -/
def calculate_relative_features (store : List Fixture)
    (home_team_id away_team_id league_id season : Nat)
    (before : Option Nat) : Except String FeatureMap := do
  let hf := calculate_standing_features store home_team_id league_id season
    "home_" before
  let af := calculate_standing_features store away_team_id league_id season
    "away_" before
  let hpos ← fmGetE hf "home_position"
  let apos ← fmGetE af "away_position"
  let hpts ← fmGetE hf "home_points"
  let apts ← fmGetE af "away_points"
  let hgd ← fmGetE hf "home_goal_diff"
  let agd ← fmGetE af "away_goal_diff"
  let hppg ← fmGetE hf "home_ppg"
  let appg ← fmGetE af "away_ppg"
  let hwr ← fmGetE hf "home_win_ratio"
  let awr ← fmGetE af "away_win_ratio"
  return hf ++ af ++
    [("diff_position", hpos - apos),
     ("diff_points", hpts - apts),
     ("diff_goal_diff", hgd - agd),
     ("diff_ppg", hppg - appg),
     ("diff_win_ratio", hwr - awr)]

/-- The WHERE clause of H2HCalculator._get_h2h_fixtures: finished meetings of
the two teams (in either venue order) strictly before the date. -/
def h2hFilter (store : List Fixture) (team1_id team2_id : Nat)
    (before : Nat) : List Fixture :=
  store.filter (fun f =>
    decide (f.date < before) && (f.status == "FT") &&
    ((f.home_team_id == team1_id && f.away_team_id == team2_id) ||
     (f.home_team_id == team2_id && f.away_team_id == team1_id)))

/-- H2HCalculator._get_h2h_fixtures: the qualifying meetings, newest first,
limited. -/
def get_h2h_fixtures (store : List Fixture) (team1_id team2_id : Nat)
    (before : Nat) (limit : Nat) : List Fixture :=
  (sortByDateDesc (h2hFilter store team1_id team2_id before)).take limit

/-- Accumulator of the meeting loop in calculate_h2h_features: counts and
goals re-expressed from the perspective of today's home team. -/
structure H2HCounts where
  home_wins : Nat
  away_wins : Nat
  draws : Nat
  home_goals : Nat
  away_goals : Nat
deriving DecidableEq, Repr

/-- One iteration of the `for f in fixtures` loop of calculate_h2h_features. -/
def h2h_step (home_team_id : Nat) (c : H2HCounts) (f : Fixture) : H2HCounts :=
  let hg := if f.home_team_id == home_team_id then hGoals f else aGoals f
  let ag := if f.home_team_id == home_team_id then aGoals f else hGoals f
  let c := { c with home_goals := c.home_goals + hg,
                    away_goals := c.away_goals + ag }
  if hg > ag then { c with home_wins := c.home_wins + 1 }
  else if ag > hg then { c with away_wins := c.away_wins + 1 }
  else { c with draws := c.draws + 1 }

/-- The aggregation loop of calculate_h2h_features. -/
def h2hFold (home_team_id : Nat) (fixtures : List Fixture) : H2HCounts :=
  fixtures.foldl (h2h_step home_team_id) ⟨0, 0, 0, 0, 0⟩

/-- The recent-meetings count of calculate_h2h_features
(wins of today's home team among the meetings given). -/
def recent_home_wins_count (home_team_id : Nat)
    (recent : List Fixture) : Nat :=
  recent.countP (fun f =>
    (f.home_team_id == home_team_id && decide (hGoals f > aGoals f)) ||
    (f.away_team_id == home_team_id && decide (aGoals f > hGoals f)))

/-- H2HCalculator.calculate_h2h_features (limit fixed to 10 as at the call
site).  No history found yields the neutral defaults, winner-rate 0.5. -/
def calculate_h2h_features (store : List Fixture)
    (home_team_id away_team_id : Nat) (before : Nat) : FeatureMap :=
  let fixtures := get_h2h_fixtures store home_team_id away_team_id before 10
  if fixtures.isEmpty then
    [("h2h_total_matches", 0), ("h2h_home_wins", 0), ("h2h_away_wins", 0),
     ("h2h_draws", 0), ("h2h_home_win_rate", 1/2),
     ("h2h_home_goals_avg", 0), ("h2h_away_goals_avg", 0)]
  else
    let n : ℚ := (fixtures.length : ℚ)
    let c := h2hFold home_team_id fixtures
    let recent := fixtures.take 5
    let rhw := recent_home_wins_count home_team_id recent
    [("h2h_total_matches", n),
     ("h2h_home_wins", (c.home_wins : ℚ)),
     ("h2h_away_wins", (c.away_wins : ℚ)),
     ("h2h_draws", (c.draws : ℚ)),
     ("h2h_home_win_rate", (c.home_wins : ℚ) / n),
     ("h2h_away_win_rate", (c.away_wins : ℚ) / n),
     ("h2h_draw_rate", (c.draws : ℚ) / n),
     ("h2h_home_goals_avg", (c.home_goals : ℚ) / n),
     ("h2h_away_goals_avg", (c.away_goals : ℚ) / n),
     ("h2h_total_goals_avg", ((c.home_goals : ℚ) + (c.away_goals : ℚ)) / n),
     ("h2h_dominance", ((c.home_wins : ℚ) - (c.away_wins : ℚ)) / n),
     ("h2h_recent_home_wins", (rhw : ℚ)),
     ("h2h_recent_home_rate",
       if recent.isEmpty then 1/2 else (rhw : ℚ) / (recent.length : ℚ))]

/-! ### Ensemble predictor (src/backend/src/models/base_predictor.py and
ensemble_predictor.py) -/

/-- Rows of feature values fed to the models. -/
abbrev Input := List (List ℚ)

/-- One output row of `predict_proba`: (P(away), P(home)). -/
abbrev ProbRow := ℚ × ℚ

/-- Parameters of a fitted `StandardScaler`. -/
structure ScalerParams where
  mean : List ℚ
  scale : List ℚ
deriving DecidableEq, Repr

/-- `scaler.transform`: per-column standardisation. -/
def scaler_transform (p : ScalerParams) (X : Input) : Input :=
  X.map (fun row =>
    (row.zip (p.mean.zip p.scale)).map (fun q => (q.1 - q.2.1) / q.2.2))

/-- The exceptions the embedded model code can raise.  `notEnoughDataError`
is the error named by the specification; nothing in the repository defines or
raises it (the string payloads of the Python exceptions are elided). -/
inductive PyError where
  | valueError
  | keyError (key : String)
  | notFittedError
  | notEnoughDataError
deriving DecidableEq, Repr

/-- The mutable attributes of an `EnsemblePredictor` instance (fields of
`BasePredictor.__init__` plus `EnsemblePredictor.__init__`).  Base models are
their `predict_proba` functions. -/
structure EnsembleState where
  name : String
  model : Option Unit
  is_fitted : Bool
  feature_names : List String
  metadata : List (String × String)
  use_calibration : Bool
  calibration_method : String
  scaler : Option ScalerParams
  models : List (String × (Input → List ProbRow))
  weights : List (String × ℚ)
  calibrated_models : List (String × (Input → List ProbRow))

/-- `EnsemblePredictor(name)`: the freshly constructed state
(unfitted scaler, no models, no weights). -/
def freshEnsemble (name : String) : EnsembleState :=
  { name := name, model := none, is_fitted := false, feature_names := [],
    metadata := [("version", "1.0.0")], use_calibration := true,
    calibration_method := "isotonic", scaler := none, models := [],
    weights := [], calibrated_models := [] }

/-- The dictionary pickled by `BasePredictor.save` — its exhaustive list of
keys: model, name, is_fitted, feature_names, metadata. -/
structure SaveData where
  model : Option Unit
  name : String
  is_fitted : Bool
  feature_names : List String
  metadata : List (String × String)
deriving DecidableEq, Repr

/-- BasePredictor.save (the serialized artifact; `EnsemblePredictor` does not
override it). -/
def save (s : EnsembleState) : SaveData :=
  { model := s.model, name := s.name, is_fitted := s.is_fitted,
    feature_names := s.feature_names, metadata := s.metadata }

/-- BasePredictor.load: assigns exactly the five pickled fields onto the
receiving instance, leaving every other attribute as constructed. -/
def load (d : SaveData) (s : EnsembleState) : EnsembleState :=
  { s with model := d.model, name := d.name, is_fitted := d.is_fitted,
           feature_names := d.feature_names, metadata := d.metadata }

/-- `self.calibrated_models if self.use_calibration else self.models`. -/
def modelsToUse (s : EnsembleState) :
    List (String × (Input → List ProbRow)) :=
  if s.use_calibration then s.calibrated_models else s.models

/-- The per-model loop of EnsemblePredictor.predict_proba: each model
contributes (its weight, its probabilities), logistic regression on the
scaled input, tree models on the raw input.  A model whose weight is missing
is skipped by the `except` clause (in every state arising in this
development the weight dict covers all models, so the append desync the
Python could exhibit cannot occur). -/
def collectProbas (s : EnsembleState) (Xscaled X : Input) :
    List (ℚ × List ProbRow) :=
  (modelsToUse s).filterMap (fun p =>
    match s.weights.find? (fun q => q.1 == p.1) with
    | some wq => some (wq.2, p.2 (if p.1 == "logreg" then Xscaled else X))
    | none => none)

/-- Elementwise scaling of probability rows. -/
def scaleRows (w : ℚ) (r : List ProbRow) : List ProbRow :=
  r.map (fun q => (w * q.1, w * q.2))

/-- Elementwise sum of probability rows. -/
def addRows (a b : List ProbRow) : List ProbRow :=
  a.zipWith (fun x y => (x.1 + y.1, x.2 + y.2)) b

/-- The combination step of predict_proba: renormalise the collected weights
(`all_weights / all_weights.sum()`), then `np.average` (which divides by the
sum of the renormalised weights). -/
def weighted_average (ps : List (ℚ × List ProbRow)) : List ProbRow :=
  let total := (ps.map Prod.fst).sum
  let norm := ps.map (fun p => (p.1 / total, p.2))
  let tot2 := (norm.map Prod.fst).sum
  match norm with
  | [] => []
  | (w, r) :: t =>
    (t.foldl (fun acc p => addRows acc (scaleRows p.1 p.2))
        (scaleRows w r)).map
      (fun q => (q.1 / tot2, q.2 / tot2))

/-- EnsemblePredictor.predict_proba.  Raises ValueError ("El modelo no está
entrenado") when not fitted; `scaler.transform` on a never-fitted
StandardScaler raises sklearn's NotFittedError; raises ValueError ("Ningún
modelo pudo hacer predicciones") when no model contributed. -/
def predict_proba (s : EnsembleState) (X : Input) :
    Except PyError (List ProbRow) :=
  if ! s.is_fitted then .error .valueError
  else
    match s.scaler with
    | none => .error .notFittedError
    | some sc =>
      let Xscaled := scaler_transform sc X
      let ps := collectProbas s Xscaled X
      if ps.isEmpty then .error .valueError
      else .ok (weighted_average ps)

/-- BasePredictor.predict: threshold the home-win probability. -/
def predict (s : EnsembleState) (X : Input) (threshold : ℚ) :
    Except PyError (List Nat) :=
  (predict_proba s X).map (fun rows =>
    rows.map (fun q => if threshold ≤ q.2 then 1 else 0))

/-- BasePredictor.get_confidence: max of the two class probabilities. -/
def get_confidence (s : EnsembleState) (X : Input) :
    Except PyError (List ℚ) :=
  (predict_proba s X).map (fun rows => rows.map (fun q => max q.1 q.2))

/-- The opaque numeric learners the ensemble delegates to (sklearn
LogisticRegression / StandardScaler / CalibratedClassifierCV, xgboost,
lightgbm) and the shuffled stratified split permutation
(`random_state=42`).  Theorems about the embedded control flow hold for
every instantiation of this record. -/
structure SkLibs where
  splitData : Input → List Nat → (Input × Input × List Nat × List Nat)
  scalerFit : Input → ScalerParams
  logregFit : Input → List Nat → (Input → List ProbRow)
  xgbFit : Input → List Nat → (Input → List ProbRow)
  lgbFit : Input → List Nat → (Input → List ProbRow)
  calibrateFit : (Input → List ProbRow) → String → Input → List Nat →
    (Input → List ProbRow)

/-- The error conditions of sklearn's `train_test_split(test_size=0.2,
stratify=y)`: `n_test = ceil(0.2·n)`, `n_train = n − n_test`; ValueError when
either side is empty, when the least populated class has fewer than two
members, or when a side is smaller than the number of classes. -/
def fitChecks (y : List Nat) : Option PyError :=
  let n := y.length
  -- `ceil(0.2 * n)` computed exactly over the naturals
  let n_test := (n + 4) / 5
  let n_train := n - n_test
  if n_test == 0 || n_train == 0 then some .valueError
  else
    let classes := y.dedup
    if classes.any (fun c => y.count c < 2) then some .valueError
    else if n_train < classes.length || n_test < classes.length then
      some .valueError
    else none

/-- EnsemblePredictor.fit.  Mirrors the source's order of effects:
_init_models (logreg 0.2, xgboost 0.4, lightgbm 0.4, normalised to sum 1 —
both gradient-boosting libraries are assumed importable), stratified
train/val split, scaler fitted on the train rows, each model fitted,
calibration on the validation split, then `_calculate_metrics` — which calls
`self.predict_proba` — and only AFTER that `self.is_fitted = True`.
Consequently the metrics step re-raises predict_proba's ValueError whenever
the instance was not already fitted before this call. -/
def fit (libs : SkLibs) (s : EnsembleState) (X : Input) (y : List Nat)
    (cols : List String) : Except PyError EnsembleState :=
  let weights0 : List (String × ℚ) :=
    [("logreg", 1/5), ("xgboost", 2/5), ("lightgbm", 2/5)]
  let s := { s with models := [], weights := weights0,
                    feature_names := cols }
  match fitChecks y with
  | some e => .error e
  | none =>
    let q := libs.splitData X y
    let Xtr := q.1
    let Xval := q.2.1
    let ytr := q.2.2.1
    let yval := q.2.2.2
    let sc := libs.scalerFit Xtr
    let logreg := libs.logregFit (scaler_transform sc Xtr) ytr
    let xgbM := libs.xgbFit Xtr ytr
    let lgbM := libs.lgbFit Xtr ytr
    let s := { s with scaler := some sc,
                      models := [("logreg", logreg), ("xgboost", xgbM),
                                 ("lightgbm", lgbM)] }
    let s :=
      if s.use_calibration then
        { s with calibrated_models :=
            [("logreg", logreg),
             ("xgboost", libs.calibrateFit xgbM s.calibration_method
               Xval yval),
             ("lightgbm", libs.calibrateFit lgbM s.calibration_method
               Xval yval)] }
      else s
    -- _calculate_metrics(X_val, y_val) runs before is_fitted is set
    match predict_proba s Xval with
    | .error e => .error e
    | .ok _ => .ok { s with is_fitted := true }

/-! ### Trainer / backtester (src/backend/src/models/trainer.py) -/

/-- A row of the training DataFrame: its date, feature values and optional
target (None for draws / unplayed matches). -/
structure TrainRow where
  date : Nat
  features : List ℚ
  target : Option Nat
deriving DecidableEq, Repr

/-- Insert a row into a list already sorted by date ascending (pandas
`sort_values("date")`; tie order among equal dates is not guaranteed by the
library, the embedding fixes one). -/
def insertAsc (r : TrainRow) : List TrainRow → List TrainRow
  | [] => [r]
  | s :: t => if s.date ≤ r.date then s :: insertAsc r t else r :: s :: t

/-- `df.sort_values("date")`. -/
def sortByDateAsc : List TrainRow → List TrainRow
  | [] => []
  | r :: t => insertAsc r (sortByDateAsc t)

/-- ModelTrainer.prepare_data: drop rows without target, keep features and
integer targets.  (`fillna(0)` is vacuous here: the embedded feature values
are total rationals.) -/
def prepare_data (df : List TrainRow) : Input × List Nat :=
  let rows := df.filter (fun r => r.target.isSome)
  (rows.map (fun r => r.features), rows.map (fun r => r.target.getD 0))

/-- ModelTrainer.train with save_model=True: fit a predictor, then — only
after fit returned — write the artifact.  The returned pair is (fitted
state, persisted artifact); an error means nothing was persisted. -/
def train (libs : SkLibs) (df : List TrainRow) :
    Except PyError (EnsembleState × SaveData) :=
  let p := prepare_data df
  match fit libs (freshEnsemble "ensemble") p.1 p.2 [] with
  | .error e => .error e
  | .ok s => .ok (s, save s)

/-- The rows the backtest iterates over: the DataFrame sorted by date, rows
without target dropped (as `prepare_data` does on the sorted frame). -/
def btRows (df : List TrainRow) : List TrainRow :=
  (sortByDateAsc df).filter (fun r => r.target.isSome)

/-- The `while start_idx < len(X)` loop of ModelTrainer.backtest, yielding
the (train_end, test_end) index pairs; `test_end = min(start_idx +
test_window_days, len(X))`, and the loop breaks on an empty test slice.
The fuel argument bounds the iteration count (each step advances). -/
def btWindowsAux (n w : Nat) : Nat → Nat → List (Nat × Nat)
  | 0, _ => []
  | fuel + 1, t =>
    if t < n then
      let te := min (t + w) n
      if te ≤ t then []
      else (t, te) :: btWindowsAux n w fuel te
    else []

/-- The (train_end, test_end) windows of a backtest over `n` rows starting
at `min_train_samples = m` with window length `w`. -/
def backtestWindows (n m w : Nat) : List (Nat × Nat) :=
  btWindowsAux n w n m

/-- The per-window data slices of ModelTrainer.backtest:
`X_train = X.iloc[:train_end]`, `X_test = X.iloc[train_end:test_end]`.
Each window constructs a fresh `EnsemblePredictor("backtest")` and fits it
on the train slice alone. -/
def backtestSplit (df : List TrainRow) (m w : Nat) :
    List (List TrainRow × List TrainRow) :=
  let rows := btRows df
  (backtestWindows rows.length m w).map (fun p =>
    (rows.take p.1, (rows.drop p.1).take (p.2 - p.1)))

/-! ### Null-goal normalisation (claim C10) -/

/-- Replace possibly-null goal columns by the value every calculator reads
through Python's `or 0` coercion. -/
def normFix (f : Fixture) : Fixture :=
  { f with home_goals := some (f.home_goals.getD 0),
           away_goals := some (f.away_goals.getD 0) }

/-! ### Concrete instances used to settle the claims -/

/-- A finished fixture with both goals recorded. -/
def mkFx (id league season date home away hg ag : Nat) : Fixture :=
  { id := id, league_id := league, season := season, date := date,
    home_team_id := home, away_team_id := away, home_goals := some hg,
    away_goals := some ag, status := "FT", result := none }

/-- C1 store: team 1 played 19 away fixtures (dates 2..20) and one home
fixture, a 3-0 win dated 1 — exactly 20 finished fixtures in total. -/
def awayFx (i : Nat) : Fixture := mkFx (i + 2) 1 2024 (i + 2) (50 + i) 1 0 1

/-- C1 store: the single home fixture of team 1 (3-0 win, date 1). -/
def homeFx : Fixture := mkFx 1 1 2024 1 1 3 3 0

/-- C1 store: the full history of team 1 before the match under analysis. -/
def storeC1 : List Fixture := (List.range 19).map awayFx ++ [homeFx]

/-- C1: a newly appended finished match of team 1 dated 150, i.e., at or
after the analysed match date 100. -/
def futureFx : Fixture := mkFx 999 1 2024 150 1 99 2 0

/-- C3: most recent fixture of team 1 — a home win. -/
def fxWin : Fixture := mkFx 1 1 2024 10 1 2 1 0

/-- C3: the fixture before it — a home loss. -/
def fxLoss : Fixture := mkFx 2 1 2024 9 1 3 0 1

/-- C2/C9: a base model emitting fixed class probabilities (0.2, 0.8). -/
def mdlA : Input → List ProbRow := fun _ => [(1/5, 4/5)]

/-- C9: a base model emitting fixed class probabilities (0.4, 0.6). -/
def mdlB : Input → List ProbRow := fun _ => [(2/5, 3/5)]

/-- C2: a base model emitting fixed class probabilities (0.25, 0.75). -/
def mdlC : Input → List ProbRow := fun _ => [(1/4, 3/4)]

/-- C2: a fitted ensemble (one calibrated logistic-regression model with
weight 1, identity scaler). -/
def fittedState : EnsembleState :=
  { freshEnsemble "ensemble" with
      is_fitted := true, feature_names := ["f1"],
      scaler := some ⟨[0], [1]⟩,
      models := [("logreg", mdlC)], weights := [("logreg", 1)],
      calibrated_models := [("logreg", mdlC)] }

/-- C2: the same fitted ensemble with a different model weight. -/
def fittedStateW : EnsembleState :=
  { fittedState with weights := [("logreg", 1/2)] }

/-- C9: the fitted two-model ensemble of the specification scenario —
weights 0.6 / 0.4, home-win probabilities 0.8 / 0.6, no calibration,
identity scaler. -/
def twoModelState : EnsembleState :=
  { freshEnsemble "ensemble" with
      is_fitted := true, use_calibration := false,
      scaler := some ⟨[0], [1]⟩,
      models := [("xgboost", mdlA), ("lightgbm", mdlB)],
      weights := [("xgboost", 3/5), ("lightgbm", 2/5)] }

/-- C5: a trivial instantiation of the opaque numeric learners. -/
def trivLibs : SkLibs :=
  { splitData := fun X y => (X, X, y, y),
    scalerFit := fun _ => ⟨[], []⟩,
    logregFit := fun _ _ => fun _ => [],
    xgbFit := fun _ _ => fun _ => [],
    lgbFit := fun _ _ => fun _ => [],
    calibrateFit := fun m _ _ _ => m }

/-- C5: a two-row training frame (one sample per class). -/
def dfSmall : List TrainRow :=
  [⟨1, [1, 2], some 1⟩, ⟨2, [3, 4], some 0⟩]

/-- C6: four rows whose middle two share a date — a backtest boundary can
fall between two matches of the same day. -/
def dfTied : List TrainRow :=
  [⟨1, [1], some 1⟩, ⟨2, [2], some 1⟩, ⟨2, [3], some 0⟩, ⟨3, [4], some 0⟩]

/-- C10: a finished fixture whose goal columns are both null. -/
def nullGoalsFx : Fixture :=
  { id := 7, league_id := 1, season := 2024, date := 5, home_team_id := 1,
    away_team_id := 2, home_goals := none, away_goals := none,
    status := "FT", result := none }

/-- `max(dates)` of a window, as in the backtest temporal-ordering property. -/
def maxDate (l : List TrainRow) : Nat :=
  match l.map (fun r => r.date) with
  | [] => 0
  | d :: t => t.foldr max d

/-- `min(dates)` of a window. -/
def minDate (l : List TrainRow) : Nat :=
  match l.map (fun r => r.date) with
  | [] => 0
  | d :: t => t.foldr min d

/-- C6: the train slice of the single backtest window over `dfTied`. -/
def tiedTrain : List TrainRow := [⟨1, [1], some 1⟩, ⟨2, [3], some 0⟩]

/-- C6: the test slice of the single backtest window over `dfTied`. -/
def tiedTest : List TrainRow := [⟨2, [2], some 1⟩, ⟨3, [4], some 0⟩]

/-! ## Theorems -/

/-- C1: the no-leakage invariant fails for the venue-specific form.
`calculate_home_away_form` asks the repository for the team's 20 most recent
fixtures with no date filter, and only then filters by `date < before_date`
in Python; an appended finished match dated at/after the analysed match can
therefore evict a genuinely prior fixture from the 20-row window.  For team 1
with the 20-fixture history `storeC1` and match date 100, the home-venue form
is 3 points before the append and 0 points after appending the finished
fixture dated 150 — the recomputed features differ, refuting the invariant. -/
theorem c1_home_away_form_leaks_future :
    fmGet (calculate_home_away_form storeC1 1 100 true) "home_form_points_5"
        = some 3 ∧
    fmGet (calculate_home_away_form (storeC1 ++ [futureFx]) 1 100 true)
        "home_form_points_5" = some 0 ∧
    futureFx.status = "FT" ∧ (100 : Nat) ≤ futureFx.date := by
  refine ⟨?_, ?_, rfl, by decide⟩ <;> rfl

/-- C2: save/load does not round-trip a fitted ensemble.
`EnsemblePredictor` inherits `BasePredictor.save`, which pickles only
{model, name, is_fitted, feature_names, metadata} — the scaler, the base
models, the weights and the calibration state are all dropped (so two states
differing in their weights persist identically), and `predict_proba` after
loading into a fresh instance raises (unfitted scaler) instead of
reproducing the pre-save prediction. -/
theorem c2_save_load_drops_ensemble_state :
    predict_proba fittedState [[5]] = .ok [(1/4, 3/4)] ∧
    predict_proba (load (save fittedState) (freshEnsemble "ensemble")) [[5]]
        = .error .notFittedError ∧
    save fittedState = save fittedStateW := by
  refine ⟨?_, rfl, rfl⟩
  simp [predict_proba, fittedState, freshEnsemble, modelsToUse,
    collectProbas, weighted_average, scaleRows, addRows, scaler_transform,
    mdlC]

/-- C3: the streak loop iterates the fixtures newest-first but lets every
later (older) iteration reset the accumulator, so the computed value is the
run ending at the OLDEST listed match, not the current streak.  With the most
recent match a win (`fxWin`, 1-0 at home) preceded by a loss, the code
returns `win_streak = 0` where the claim requires `win_streak ≥ 1`. -/
theorem c3_streak_counts_run_at_oldest :
    calculate_streak 1 [fxWin, fxLoss] = ⟨0, 0, 1⟩ ∧
    fmGet (calculate_form_features [fxWin, fxLoss] 1 100 "") "win_streak"
        = some 0 ∧
    fixture_points 1 fxWin = 3 := by
  refine ⟨rfl, ?_, rfl⟩
  rfl

/-- C4: a team with no qualifying fixtures gets the four-entry default
standing dict (position 10, points/goal_diff/ppg 0), but that dict lacks the
`win_ratio` key, so `calculate_relative_features` raises
`KeyError('home_win_ratio')` instead of recovering with defaults. -/
theorem c4_relative_features_raise_keyerror :
    calculate_relative_features [] 1 2 1 2024 (some 100)
        = .error "home_win_ratio" ∧
    calculate_standing_features [] 1 1 2024 "home_" (some 100)
        = [("home_position", 10), ("home_points", 0),
           ("home_goal_diff", 0), ("home_ppg", 0)] := by
  refine ⟨?_, ?_⟩ <;> rfl

/-- C5 counterexample: on a two-row dataset (one sample per class) `fit`
fails inside the embedded sklearn stratified-split checks with a ValueError
— not with the `NotEnoughDataError` the claim names, which nothing in the
repository defines or raises — and `train` propagates that ValueError. -/
theorem c5_fit_raises_valueerror_not_notenoughdata :
    fit trivLibs (freshEnsemble "ensemble") [[1, 2], [3, 4]] [1, 0] []
        = .error .valueError ∧
    train trivLibs dfSmall = .error .valueError ∧
    PyError.valueError ≠ PyError.notEnoughDataError := by
  refine ⟨?_, ?_, by decide⟩ <;> rfl

/-- C6 counterexample: with two matches sharing a date on either side of a
window boundary (`dfTied`, dates 1,2,2,3, minimum train size 2, window 2),
the single backtest window has `max(train_dates) = 2 = min(test_dates)`, so
the strict inequality `max(train_dates) < min(test_dates)` fails. -/
theorem c6_shared_date_boundary :
    ((backtestSplit dfTied 2 2).map (fun p => (maxDate p.1, minDate p.2)))
        = [(2, 2)] ∧ ¬ ((2 : Nat) < 2) := by
  refine ⟨?_, by decide⟩
  rfl

/-- C9: the specification scenario for the weighted combination — two models
weighted 0.6/0.4 emitting home-win probabilities 0.8/0.6 on one sample
combine to P(home) = 0.72 (= 18/25), the confidence is 0.72 and the
predicted label is 1 (home win). -/
theorem c9_two_model_scenario :
    predict_proba twoModelState [[0]] = .ok [(7/25, 18/25)] ∧
    get_confidence twoModelState [[0]] = .ok [18/25] ∧
    predict twoModelState [[0]] (1/2) = .ok [1] := by
  have h : predict_proba twoModelState [[0]] = .ok [(7/25, 18/25)] := by
    simp [predict_proba, twoModelState, freshEnsemble, modelsToUse,
      collectProbas, weighted_average, scaleRows, addRows, scaler_transform,
      mdlA, mdlB]
    norm_num
  refine ⟨h, ?_, ?_⟩
  · simp [get_confidence, h, Except.map]
    norm_num
  · simp [predict, h, Except.map]
    norm_num

/-- Supporting fact: `EnsemblePredictor.fit` on a not-yet-fitted instance can
never succeed, whatever the numeric learners do — `_calculate_metrics` calls
`self.predict_proba` before `self.is_fitted = True` is assigned, and
predict_proba raises when the flag is still False. -/
theorem fit_on_fresh_instance_errors (libs : SkLibs) (nm : String)
    (X : Input) (y : List Nat) (cols : List String) :
    ∃ e, fit libs (freshEnsemble nm) X y cols = .error e := by
  unfold fit
  cases h : fitChecks y with
  | some e => exact ⟨e, by simp [h]⟩
  | none =>
    refine ⟨.valueError, ?_⟩
    simp [h, predict_proba, freshEnsemble]

/-- C5 (amended): when the embedded sklearn split checks reject the dataset
(in particular whenever some class has fewer than two samples), `fit` fails
with that ValueError — the repository defines no `NotEnoughDataError` — and
`ModelTrainer.train` propagates the error without persisting anything: the
artifact is produced only after `fit` returns successfully. -/
theorem c5_small_dataset_aborts_training (libs : SkLibs)
    (df : List TrainRow) (e : PyError)
    (hchk : fitChecks (prepare_data df).2 = some e) :
    fit libs (freshEnsemble "ensemble") (prepare_data df).1
        (prepare_data df).2 [] = .error e ∧
    train libs df = .error e := by
  constructor
  · simp [fit, hchk]
  · simp [train, fit, hchk]

/-- C5 witness: the two-row frame `dfSmall` satisfies the hypothesis and the
amended claim's conclusion. -/
theorem c5_small_dataset_witness :
    fitChecks (prepare_data dfSmall).2 = some .valueError ∧
    train trivLibs dfSmall = .error .valueError :=
  ⟨rfl, (c5_small_dataset_aborts_training trivLibs dfSmall .valueError
    rfl).2⟩

/-- Elements of `insertAsc r l` are `r` or elements of `l`. -/
theorem mem_insertAsc {r x : TrainRow} :
    ∀ {l : List TrainRow}, x ∈ insertAsc r l → x = r ∨ x ∈ l := by
  intro l
  induction l with
  | nil => simp [insertAsc]
  | cons s t ih =>
    simp only [insertAsc]
    split
    · intro h
      rcases List.mem_cons.1 h with h | h
      · exact Or.inr (by simp [h])
      · rcases ih h with h | h
        · exact Or.inl h
        · exact Or.inr (List.mem_cons_of_mem _ h)
    · intro h
      rcases List.mem_cons.1 h with h | h
      · exact Or.inl h
      · exact Or.inr h

/-- `insertAsc` preserves sortedness by date. -/
theorem pairwise_insertAsc (r : TrainRow) :
    ∀ {l : List TrainRow},
      l.Pairwise (fun a b => a.date ≤ b.date) →
      (insertAsc r l).Pairwise (fun a b => a.date ≤ b.date) := by
  intro l
  induction l with
  | nil => simp [insertAsc]
  | cons s t ih =>
    intro h
    rw [List.pairwise_cons] at h
    obtain ⟨hs, ht⟩ := h
    simp only [insertAsc]
    split
    · rename_i hle
      rw [List.pairwise_cons]
      refine ⟨?_, ih ht⟩
      intro x hx
      rcases mem_insertAsc hx with rfl | hx
      · exact hle
      · exact hs x hx
    · rename_i hgt
      rw [List.pairwise_cons]
      refine ⟨?_, List.pairwise_cons.2 ⟨hs, ht⟩⟩
      intro x hx
      rcases List.mem_cons.1 hx with rfl | hx
      · omega
      · exact le_trans (by omega) (hs x hx)

/-- The backtest's date sort is sorted by date. -/
theorem pairwise_sortByDateAsc (l : List TrainRow) :
    (sortByDateAsc l).Pairwise (fun a b => a.date ≤ b.date) := by
  induction l with
  | nil => simp [sortByDateAsc]
  | cons r t ih => exact pairwise_insertAsc r ih

/-- The rows the backtest slices are sorted by date. -/
theorem pairwise_btRows (df : List TrainRow) :
    (btRows df).Pairwise (fun a b => a.date ≤ b.date) :=
  (pairwise_sortByDateAsc df).filter _

/-- C6 (amended): every backtest window is a positional split of the
date-sorted rows — the train slice is exactly the rows strictly before the
test window's start index, on which a fresh `EnsemblePredictor` is fitted —
and consequently every train date is ≤ every test date.  (The strict
inequality `max(train_dates) < min(test_dates)` of the original claim fails
when matches on either side of the boundary share a date, see the
counterexample.) -/
theorem c6_backtest_windows_ordered (df : List TrainRow) (m w : Nat)
    (tr te : List TrainRow) (hmem : (tr, te) ∈ backtestSplit df m w) :
    (∃ a b, (a, b) ∈ backtestWindows (btRows df).length m w ∧
      tr = (btRows df).take a ∧ te = ((btRows df).drop a).take (b - a)) ∧
    ∀ r ∈ tr, ∀ s ∈ te, r.date ≤ s.date := by
  obtain ⟨⟨a, b⟩, hw, heq⟩ := List.mem_map.1 hmem
  rw [Prod.mk.injEq] at heq
  obtain ⟨h1, h2⟩ := heq
  subst h1
  subst h2
  refine ⟨⟨a, b, hw, rfl, rfl⟩, ?_⟩
  intro r hr s hs
  have hp := pairwise_btRows df
  rw [← List.take_append_drop a (btRows df), List.pairwise_append] at hp
  exact hp.2.2 r hr s ((List.take_sublist _ _).subset hs)

/-- C6 witness: the window of `dfTied` at minimum train size 2 and window
length 2, with its date bound. -/
theorem c6_backtest_windows_witness :
    (tiedTrain, tiedTest) ∈ backtestSplit dfTied 2 2 ∧
    (∀ r ∈ tiedTrain, ∀ s ∈ tiedTest, r.date ≤ s.date) := by
  have hm : (tiedTrain, tiedTest) ∈ backtestSplit dfTied 2 2 := by
    have h : backtestSplit dfTied 2 2 = [(tiedTrain, tiedTest)] := rfl
    rw [h]
    exact List.mem_singleton_self _
  exact ⟨hm, (c6_backtest_windows_ordered dfTied 2 2 tiedTrain tiedTest
    hm).2⟩

/-- A filter with a stronger predicate of an already-empty filter is empty. -/
theorem filter_nil_of_imp {p q : Fixture → Bool} (l : List Fixture)
    (himp : ∀ f, q f = true → p f = true) (h : l.filter p = []) :
    l.filter q = [] := by
  rw [List.filter_eq_nil_iff] at h ⊢
  intro a ha hq
  exact h a ha (himp a hq)

/-- Every entry of the form-feature default window has value 0. -/
theorem val_of_mem_formWindowDefaults {pfx : String} {w : Nat} {k : String}
    {v : ℚ} (h : (k, v) ∈ formWindowDefaults pfx w) : v = 0 := by
  rcases List.mem_map.1 h with ⟨a, -, h2⟩
  injection h2 with _ h4
  exact h4.symm

/-- C7: the default-fill property.  A team with zero finished matches before
the cutoff gets every Form feature equal to 0 and standing position 10, and a
pair of teams with no prior meetings gets `h2h_home_win_rate = 0.5` with all
H2H counts 0. -/
theorem c7_default_fill (store : List Fixture)
    (teamA teamB league season before : Nat) (pfx : String)
    (hA : formFilter store teamA before = [])
    (hH : h2hFilter store teamA teamB before = []) :
    (∀ k v, (k, v) ∈ calculate_form_features store teamA before pfx →
      v = 0) ∧
    fmGet (calculate_standing_features store teamA league season pfx
      (some before)) (pfx ++ "position") = some 10 ∧
    fmGet (calculate_h2h_features store teamA teamB before)
      "h2h_home_win_rate" = some (1/2) ∧
    fmGet (calculate_h2h_features store teamA teamB before)
      "h2h_total_matches" = some 0 ∧
    fmGet (calculate_h2h_features store teamA teamB before)
      "h2h_home_wins" = some 0 ∧
    fmGet (calculate_h2h_features store teamA teamB before)
      "h2h_away_wins" = some 0 ∧
    fmGet (calculate_h2h_features store teamA teamB before)
      "h2h_draws" = some 0 := by
  have hf : get_recent_fixtures store teamA before 10 = [] := by
    simp [get_recent_fixtures, hA, sortByDateDesc]
  have hS : standingFixtures store teamA league season (some before) = [] := by
    refine filter_nil_of_imp store ?_ hA
    intro f hq
    simp only [Bool.and_eq_true, Bool.or_eq_true, beq_iff_eq,
      decide_eq_true_eq] at hq ⊢
    tauto
  have hgs : get_standing store teamA league season (some before) = none := by
    simp [get_standing, hS]
  have hh : get_h2h_fixtures store teamA teamB before 10 = [] := by
    simp [get_h2h_fixtures, hH, sortByDateDesc]
  have hmap2 : calculate_h2h_features store teamA teamB before =
      [("h2h_total_matches", 0), ("h2h_home_wins", 0), ("h2h_away_wins", 0),
       ("h2h_draws", 0), ("h2h_home_win_rate", 1/2),
       ("h2h_home_goals_avg", 0), ("h2h_away_goals_avg", 0)] := by
    simp [calculate_h2h_features, hh]
  refine ⟨?_, ?_, ?_, ?_, ?_, ?_, ?_⟩
  · intro k v hkv
    have hmap : calculate_form_features store teamA before pfx =
        (formWindowDefaults pfx 3 ++ (formWindowDefaults pfx 5 ++
          (formWindowDefaults pfx 10 ++ []))) ++
        [(pfx ++ "win_streak", 0), (pfx ++ "unbeaten_streak", 0),
         (pfx ++ "winless_streak", 0)] := by
      simp [calculate_form_features, hf, formWindowFeatures,
        formStreakFeatures]
    rw [hmap] at hkv
    simp only [List.append_nil, List.mem_append] at hkv
    rcases hkv with (h | h | h) | h
    · exact val_of_mem_formWindowDefaults h
    · exact val_of_mem_formWindowDefaults h
    · exact val_of_mem_formWindowDefaults h
    · simp at h
      tauto
  · simp only [calculate_standing_features, hgs]
    simp [fmGet, List.find?]
  · rw [hmap2]; rfl
  · rw [hmap2]; rfl
  · rw [hmap2]; rfl
  · rw [hmap2]; rfl
  · rw [hmap2]; rfl

/-- C7 witness: the empty store satisfies both hypotheses, and the defaults
are observed there. -/
theorem c7_default_fill_witness :
    formFilter [] 1 100 = [] ∧ h2hFilter [] 1 2 100 = [] ∧
    ((∀ k v, (k, v) ∈ calculate_form_features [] 1 100 "x_" → v = 0) ∧
     fmGet (calculate_standing_features [] 1 1 2024 "x_" (some 100))
       ("x_" ++ "position") = some 10 ∧
     fmGet (calculate_h2h_features [] 1 2 100) "h2h_home_win_rate"
       = some (1/2) ∧
     fmGet (calculate_h2h_features [] 1 2 100) "h2h_total_matches"
       = some 0 ∧
     fmGet (calculate_h2h_features [] 1 2 100) "h2h_home_wins" = some 0 ∧
     fmGet (calculate_h2h_features [] 1 2 100) "h2h_away_wins" = some 0 ∧
     fmGet (calculate_h2h_features [] 1 2 100) "h2h_draws" = some 0) :=
  ⟨rfl, rfl, c7_default_fill [] 1 2 1 2024 100 "x_" rfl rfl⟩

/-- Null-goal normalisation rewrites the team-side goal read. -/
theorem hGoals_normFix (f : Fixture) : hGoals (normFix f) = hGoals f := by
  simp [hGoals, normFix]

/-- Null-goal normalisation rewrites the opponent-side goal read. -/
theorem aGoals_normFix (f : Fixture) : aGoals (normFix f) = aGoals f := by
  simp [aGoals, normFix]

/-- Normalisation keeps the home team. -/
theorem normFix_home_team (f : Fixture) :
    (normFix f).home_team_id = f.home_team_id := rfl

/-- Normalisation keeps the away team. -/
theorem normFix_away_team (f : Fixture) :
    (normFix f).away_team_id = f.away_team_id := rfl

/-- Per-fixture points are insensitive to null-goal normalisation. -/
theorem fixture_points_normFix (t : Nat) (f : Fixture) :
    fixture_points t (normFix f) = fixture_points t f := by
  simp [fixture_points, hGoals_normFix, aGoals_normFix, normFix_home_team]

/-- The streak step is insensitive to null-goal normalisation. -/
theorem streak_step_normFix (t : Nat) (s : Streaks) (f : Fixture) :
    streak_step t s (normFix f) = streak_step t s f := by
  simp [streak_step, hGoals_normFix, aGoals_normFix, normFix_home_team]

/-- The standings step is insensitive to null-goal normalisation. -/
theorem standing_step_normFix (t : Nat) (s : StandingStats) (f : Fixture) :
    standing_step t s (normFix f) = standing_step t s f := by
  simp [standing_step, hGoals_normFix, aGoals_normFix, normFix_home_team]

/-- The H2H step is insensitive to null-goal normalisation. -/
theorem h2h_step_normFix (t : Nat) (c : H2HCounts) (f : Fixture) :
    h2h_step t c (normFix f) = h2h_step t c f := by
  simp [h2h_step, hGoals_normFix, aGoals_normFix, normFix_home_team]

/-- Folding over normalised fixtures equals folding over the originals when
the step is insensitive to normalisation. -/
theorem foldl_map_normFix {β : Type} (step : β → Fixture → β)
    (hstep : ∀ b f, step b (normFix f) = step b f) :
    ∀ (fs : List Fixture) (init : β),
      (fs.map normFix).foldl step init = fs.foldl step init := by
  intro fs
  induction fs with
  | nil => intro init; rfl
  | cons f l ih =>
    intro init
    simp only [List.map_cons, List.foldl_cons, hstep]
    exact ih (step init f)

/-- C10: every calculator reads null goals as 0 and still counts the match.
The first block shows each aggregation is unchanged when null goal columns
are replaced by explicit 0s; `played` counts every fixture regardless of its
goals; and a finished match with both goals null contributes exactly one
draw (1 point, W/D/L = 0/1/0) wherever it appears. -/
theorem c10_null_goals_read_as_zero (t : Nat) (fs : List Fixture)
    (f : Fixture) (hh : f.home_goals = none) (ha : f.away_goals = none) :
    calculate_points t (fs.map normFix) = calculate_points t fs ∧
    calculate_goals t (fs.map normFix) = calculate_goals t fs ∧
    calculate_wins_draws_losses t (fs.map normFix)
      = calculate_wins_draws_losses t fs ∧
    calculate_streak t (fs.map normFix) = calculate_streak t fs ∧
    calculate_clean_sheets t (fs.map normFix)
      = calculate_clean_sheets t fs ∧
    standingsFold t (fs.map normFix) = standingsFold t fs ∧
    h2hFold t (fs.map normFix) = h2hFold t fs ∧
    recent_home_wins_count t (fs.map normFix)
      = recent_home_wins_count t fs ∧
    (standingsFold t fs).played = fs.length ∧
    fixture_points t f = 1 ∧
    calculate_wins_draws_losses t [f] = (0, 1, 0) ∧
    (standingsFold t [f]).draw = 1 ∧
    (standingsFold t [f]).played = 1 := by
  have hpts : ∀ l, calculate_points t (l.map normFix)
      = calculate_points t l := by
    intro l
    induction l with
    | nil => rfl
    | cons g l ih => simp [calculate_points, ih, fixture_points_normFix]
  have hgoals : ∀ l, calculate_goals t (l.map normFix)
      = calculate_goals t l := by
    intro l
    induction l with
    | nil => rfl
    | cons g l ih =>
      simp [calculate_goals, ih, hGoals_normFix, aGoals_normFix,
        normFix_home_team]
  have hwdl : ∀ l, calculate_wins_draws_losses t (l.map normFix)
      = calculate_wins_draws_losses t l := by
    intro l
    induction l with
    | nil => rfl
    | cons g l ih =>
      simp [calculate_wins_draws_losses, ih, hGoals_normFix, aGoals_normFix,
        normFix_home_team]
  have hcs : ∀ l, calculate_clean_sheets t (l.map normFix)
      = calculate_clean_sheets t l := by
    intro l
    induction l with
    | nil => rfl
    | cons g l ih =>
      simp [calculate_clean_sheets, ih, hGoals_normFix, aGoals_normFix,
        normFix_home_team]
  have hplayed : ∀ (l : List Fixture) (s : StandingStats),
      (l.foldl (standing_step t) s).played = s.played + l.length := by
    intro l
    induction l with
    | nil => intro s; simp
    | cons g l ih =>
      intro s
      have hstep : (standing_step t s g).played = s.played + 1 := by
        simp [standing_step, apply_ite (fun r : StandingStats => r.played)]
      simp only [List.foldl_cons, ih, hstep, List.length_cons]
      omega
  have hrecent : ∀ l, recent_home_wins_count t (l.map normFix)
      = recent_home_wins_count t l := by
    intro l
    induction l with
    | nil => rfl
    | cons g l ih =>
      simp only [recent_home_wins_count, List.countP_cons, List.map_cons]
        at ih ⊢
      rw [ih, hGoals_normFix, aGoals_normFix, normFix_home_team,
        normFix_away_team]
  refine ⟨hpts fs, hgoals fs, hwdl fs, ?_, hcs fs, ?_, ?_, hrecent fs,
    ?_, ?_, ?_, ?_, ?_⟩
  · exact foldl_map_normFix _ (streak_step_normFix t) fs _
  · unfold standingsFold
    rw [foldl_map_normFix _ (standing_step_normFix t)]
  · exact foldl_map_normFix _ (h2h_step_normFix t) fs _
  · unfold standingsFold
    dsimp only
    rw [hplayed fs emptyStandingStats]
    simp [emptyStandingStats]
  · simp [fixture_points, hGoals, aGoals, hh, ha]
  · simp [calculate_wins_draws_losses, hGoals, aGoals, hh, ha]
  · unfold standingsFold
    simp only [List.foldl_cons, List.foldl_nil]
    simp [standing_step, hGoals, aGoals, hh, ha, emptyStandingStats,
      apply_ite (fun r : StandingStats => r.draw)]
  · unfold standingsFold
    simp only [List.foldl_cons, List.foldl_nil]
    simp [standing_step, hGoals, aGoals, hh, ha, emptyStandingStats,
      apply_ite (fun r : StandingStats => r.played)]

/-- C10 witness: the both-null finished fixture `nullGoalsFx` inside a small
history, with the hypotheses discharged. -/
theorem c10_null_goals_witness :
    nullGoalsFx.home_goals = none ∧ nullGoalsFx.away_goals = none ∧
    (calculate_points 1 ([nullGoalsFx, fxWin].map normFix)
      = calculate_points 1 [nullGoalsFx, fxWin] ∧
     calculate_wins_draws_losses 1 [nullGoalsFx] = (0, 1, 0) ∧
     (standingsFold 1 [nullGoalsFx]).draw = 1 ∧
     (standingsFold 1 [nullGoalsFx]).played = 1) := by
  have h := c10_null_goals_read_as_zero 1 [nullGoalsFx, fxWin] nullGoalsFx
    rfl rfl
  exact ⟨rfl, rfl, h.1, h.2.2.2.2.2.2.2.2.2.2.1, h.2.2.2.2.2.2.2.2.2.2.2.1,
    h.2.2.2.2.2.2.2.2.2.2.2.2⟩

end AF
